import Mathlib

/-!
Verification development for the The-wiZZ pdf-maker drivers
(`pdf_maker.py` and `pdf_maker_full_sample.py`) and the engine they drive.

The repository ships the two driver scripts; the engine module
`pdf_maker_utils` (binners, pair collapser, region-density aggregator,
bootstrap engine) is external to the shipped sources, so its operations are
modelled here from the specification, while the drivers' dispatch and
sequencing logic is embedded directly from the scripts.

Numeric conventions: redshifts, weights and densities are rationals (the
idealisation of the floating-point arithmetic of the code); the log-spaced
binner and the bootstrap standard deviation, which need transcendental
functions, live over the reals.
-/

namespace TheWizz

/-! ## RedshiftBinner -/

/-- Modelled from the spec: `_create_linear_redshift_bin_edges` of
`pdf_maker_utils` (external to the shipped sources) returns `n_bins + 1`
edges evenly spaced between `z_min` and `z_max` inclusive. -/
def _create_linear_redshift_bin_edges (z_min z_max : ℚ) (n_bins : ℕ) : List ℚ :=
  (List.range (n_bins + 1)).map
    (fun i : ℕ => z_min + (i : ℚ) * ((z_max - z_min) / (n_bins : ℚ)))

/-- Modelled from the spec: `_create_logspace_redshift_bin_edges` of
`pdf_maker_utils` (external to the shipped sources) returns `n_bins + 1`
edges evenly spaced in `log (1 + z)` space and transformed back; it
requires `z_min > -1`. -/
noncomputable def _create_logspace_redshift_bin_edges (z_min z_max : ℝ) (n_bins : ℕ) :
    List ℝ :=
  (List.range (n_bins + 1)).map (fun i : ℕ =>
    Real.exp (Real.log (1 + z_min) +
      (i : ℝ) * ((Real.log (1 + z_max) - Real.log (1 + z_min)) / (n_bins : ℝ))) - 1)

/-- Fatal condition raised by degenerate adaptive-binning input. -/
inductive BinningError where
  | degenerate
  deriving DecidableEq, Repr

/-- Reference redshifts restricted to the requested interval, in input order. -/
def restrictedRedshifts (z_min z_max : ℚ) (refs : List ℚ) : List ℚ :=
  refs.filter (fun z => decide (z_min ≤ z ∧ z ≤ z_max))

/-- Restricted reference redshifts, stably sorted (ties keep input order). -/
def sortedRestricted (z_min z_max : ℚ) (refs : List ℚ) : List ℚ :=
  (restrictedRedshifts z_min z_max refs).insertionSort (· ≤ ·)

/-- Modelled from the spec: `_create_adaptive_redshift_bin_edges` of
`pdf_maker_utils` (external to the shipped sources) performs quantile
binning of the reference redshifts restricted to `[z_min, z_max]`: edges
are drawn at positions `i * m / n_bins` of the stably sorted restricted
list of length `m`; fewer than `n_bins` distinct restricted redshifts is
the degenerate case and fails with a `BinningError`. -/
def _create_adaptive_redshift_bin_edges (z_min z_max : ℚ) (n_bins : ℕ)
    (refs : List ℚ) : Except BinningError (List ℚ) :=
  if ((restrictedRedshifts z_min z_max refs).dedup).length < n_bins then
    .error .degenerate
  else
    let s := sortedRestricted z_min z_max refs
    .ok (((List.range n_bins).map (fun i => s.getD (i * s.length / n_bins) z_min))
      ++ [z_max])

/-- Number of sorted positions that quantile binning assigns to bin `i`
when `m` objects are split into `n` bins: positions `i*m/n ≤ p < (i+1)*m/n`. -/
def adaptiveBinCount (m n i : ℕ) : ℕ :=
  (i + 1) * m / n - i * m / n

/-- The slice of the sorted restricted redshift list that quantile binning
assigns to bin `i` (ties at shared values resolved by stable sort order,
i.e. positionally). -/
def adaptiveBinMembers (s : List ℚ) (n i : ℕ) : List ℚ :=
  (s.drop (i * s.length / n)).take (adaptiveBinCount s.length n i)

example : _create_linear_redshift_bin_edges 0 2 4 = [0, 1/2, 1, 3/2, 2] := by
  norm_num [_create_linear_redshift_bin_edges, List.range_succ]

example : adaptiveBinCount 7 3 0 = 2 ∧ adaptiveBinCount 7 3 1 = 2 ∧
    adaptiveBinCount 7 3 2 = 3 := by decide

example : _create_adaptive_redshift_bin_edges 0 10 2 [3, 1, 2, 11] =
    .ok [1, 2, 10] := rfl

example : _create_adaptive_redshift_bin_edges 0 10 3 [3, 3, 3, 11] =
    .error .degenerate := rfl

/-! ## Data model: collapsed estimates and the pair table -/

/-- One collapsed density estimate per reference object: its spatial region
label, its redshift, and the scalar density collapsed from the matched
unknown objects. -/
structure CollapsedEstimate where
  region : ℕ
  redshift : ℚ
  density : ℚ
  deriving DecidableEq, Repr

/-- One record of the external pair table: a reference object's region
label, redshift and matched unknown-object indices (at the chosen scale). -/
structure ReferenceRecord where
  region : ℕ
  redshift : ℚ
  matchedIndices : List ℕ
  deriving DecidableEq, Repr

/-- The external unknown-sample catalog interface: the inclusion mask and
the per-object weight lookup derived from it by the excluded I/O layer. -/
structure UnknownCatalog where
  mask : ℕ → Bool
  weight : ℕ → ℚ

/-! ## PairCollapser -/

/-- Modelled from the spec: the core of `collapse_ids_to_single_estimate`
of `pdf_maker_utils` (external to the shipped sources): for each reference
object, filter its matched indices through the inclusion mask and sum the
corresponding weights. -/
def collapse_ids_core (table : List ReferenceRecord) (cat : UnknownCatalog) :
    List CollapsedEstimate :=
  table.map (fun r =>
    ⟨r.region, r.redshift, ((r.matchedIndices.filter cat.mask).map cat.weight).sum⟩)

/-- Modelled from the spec: `collapse_full_sample` of `pdf_maker_utils`
(external to the shipped sources): every unknown object is included in the
estimate, unweighted (weight 1.0 each), so the density is the number of
matched indices; the catalog's per-object weights are not consulted. -/
def collapse_full_sample (table : List ReferenceRecord) (_cat : UnknownCatalog) :
    List CollapsedEstimate :=
  table.map (fun r => ⟨r.region, r.redshift, (r.matchedIndices.length : ℚ)⟩)

/-! ## RegionDensityAggregator -/

/-- Bin-location step of the aggregator: the binary-search position of `z`
among the ordered edges, i.e. the number of edges not exceeding `z`.
Always at most `edges.length`. -/
def binIndexOf (edges : List ℚ) (z : ℚ) : ℕ :=
  edges.countP (fun e => decide (e ≤ z))

/-- Accumulate one estimate's density contribution and a unit object count
into the matrix cell at `key`. -/
def bumpCell (m : ℕ × ℕ → ℚ × ℕ) (key : ℕ × ℕ) (d : ℚ) : ℕ × ℕ → ℚ × ℕ :=
  fun k => if k = key then ((m k).1 + d, (m k).2 + 1) else m k

/-- Modelled from the spec: `compute_region_densities` of `pdf_maker_utils`
(external to the shipped sources): every collapsed estimate with redshift
strictly below `z_max` contributes its density and a unit count to the
cell keyed by its region label and its binary-search bin; estimates with
redshift at or above `z_max` are excluded entirely.  The matrix is the
total function from (region, bin) cells to (accumulated density, object
count), zero outside the touched cells. -/
def compute_region_densities : List CollapsedEstimate → List ℚ → ℚ → (ℕ × ℕ → ℚ × ℕ)
  | [], _, _ => fun _ => (0, 0)
  | e :: rest, edges, z_max =>
    let m := compute_region_densities rest edges z_max
    if e.redshift < z_max then
      bumpCell m (e.region, binIndexOf edges e.redshift) e.density
    else m

/-- Object-count row sum of one region over all possible bin cells. -/
def regionRowCount (ests : List CollapsedEstimate) (edges : List ℚ) (z_max : ℚ)
    (r : ℕ) : ℕ :=
  Finset.sum (Finset.range (edges.length + 1))
    (fun b => (compute_region_densities ests edges z_max (r, b)).2)

/-- Object counts summed over all (region, bin) cells of the matrix. -/
def totalCellCount (ests : List CollapsedEstimate) (edges : List ℚ) (z_max : ℚ) : ℕ :=
  Finset.sum ((ests.map CollapsedEstimate.region).toFinset)
    (fun r => regionRowCount ests edges z_max r)

/-! ## BootstrapEngine -/

/-- The region-by-bin matrix of (density, object count) cells together
with its dimensions, as consumed by the bootstrap engine. -/
structure RegionDensityMatrix where
  nRegions : ℕ
  nBins : ℕ
  cell : ℕ → ℕ → ℚ × ℕ

/-- Terminal artifact of the pipeline: per-bin estimates, per-bin errors
and the full bin-by-trial matrix. -/
structure PDFResult where
  estimates : List ℚ
  errors : List ℝ
  trials : List (List ℚ)

/-- One trial's PDF value in one bin: the drawn regions' summed densities
normalized by the number of objects summed, with a zero sentinel for a
zero-count draw. -/
def trialValue (m : RegionDensityMatrix) (draw : List ℕ) (b : ℕ) : ℚ :=
  let dsum := (draw.map (fun r => (m.cell r b).1)).sum
  let csum := (draw.map (fun r => (m.cell r b).2)).sum
  if csum = 0 then 0 else dsum / (csum : ℚ)

/-- Modelled from the spec: `_compute_pdf_bootstrap` of `pdf_maker_utils`
(external to the shipped sources), the fixed-resample variant: each
supplied region-draw list yields one PDF value per bin; the per-bin
estimate is the mean across trials and the per-bin error the sample
standard deviation across trials.  A pure function of the matrix and the
draw list: no randomness enters this path. -/
noncomputable def _compute_pdf_bootstrap (m : RegionDensityMatrix)
    (draws : List (List ℕ)) : PDFResult :=
  let trials := draws.map (fun d => (List.range m.nBins).map (trialValue m d))
  let t : ℚ := draws.length
  let est := (List.range m.nBins).map
    (fun b => ((trials.map (fun tr => tr.getD b 0)).sum) / t)
  let var := (List.range m.nBins).map
    (fun b => ((trials.map (fun tr => (tr.getD b 0 - est.getD b 0) ^ 2)).sum) / (t - 1))
  ⟨est, var.map (fun v => Real.sqrt (v : ℝ)), trials⟩

/-! ## Driver model

Embedding of the `__main__` blocks of `pdf_maker.py` and
`pdf_maker_full_sample.py`.  The engine calls they make are represented by
the models above; calls whose numeric content is irrelevant to the drivers
(comoving binning, the random-draw bootstrap) stay symbolic. -/

/-- Run-aborting conditions of the pipeline.  `nameError` models Python's
`NameError` on an unbound name. -/
inductive PyErr where
  | nameError (name : String)
  | binningError
  | pipelineStateError (op : String)
  | workerFailure
  deriving DecidableEq, Repr

/-- Value of the driver variable `z_bin_edge_array`: either a numeric edge
list computed by a modelled binner (or read from file), or a symbolic
record of an external binner call the drivers never consume numerically. -/
inductive EdgeArray where
  | values (edges : List ℚ)
  | comovingCall (z_min z_max : ℚ) (n_bins : ℕ)
  | logspaceCall (z_min z_max : ℚ) (n_bins : ℕ)
  | adaptiveCall (z_min z_max : ℚ) (n_bins : ℕ)
  deriving DecidableEq, Repr

/-- Python name lookup: evaluating an identifier that is not bound in the
current scope raises a `NameError`. -/
def lookupName (scope : List String) (n : String) : Except PyErr Unit :=
  if n ∈ scope then .ok () else .error (.nameError n)

/-- Pipeline states of the PDFMaker orchestrator, in order. -/
inductive PipelineState where
  | uninitialized
  | pairsLoaded
  | collapsed
  | regionDensitiesComputed
  | bootstrapComputed
  | written
  deriving DecidableEq, Repr

/-- Position of a pipeline state in the one-directional state order. -/
def PipelineState.rank : PipelineState → ℕ
  | .uninitialized => 0
  | .pairsLoaded => 1
  | .collapsed => 2
  | .regionDensitiesComputed => 3
  | .bootstrapComputed => 4
  | .written => 5

/-- Guard of an orchestrator operation: invoking it before its prerequisite
state has been reached fails with a `PipelineStateError` naming the
operation. -/
def requireState (cur req : PipelineState) (op : String) : Except PyErr Unit :=
  if req.rank ≤ cur.rank then .ok () else .error (.pipelineStateError op)

/-- External world of one driver run: file contents by path, the pair file
data, the unknown catalog, and whether the parallel collapsing workers all
succeed. -/
structure Env where
  loadtxt : String → List ℚ
  loadtxtInt : String → List (List ℕ)
  referenceRedshifts : List ℚ
  pairTable : List ReferenceRecord
  catalog : UnknownCatalog
  workerOk : Bool

/-- Observable outcome of one driver run: the warnings printed, the output
files created (in creation order), the pipeline steps entered, the edges
handed to `compute_region_densities`, the collapsed estimates, and the
final outcome (`none` = ran to completion). -/
structure RunResult where
  warnings : List String
  filesCreated : List String
  events : List String
  densityEdges : Option EdgeArray
  estimates : Option (List CollapsedEstimate)
  outcome : Option PyErr
  deriving DecidableEq, Repr

/-- Warning printed by the invalid-binning-name fallback of `pdf_maker.py`. -/
def pdfInvalidBinningWarning : String :=
  "Requested binning name invalid. Returning linear binning..."

/-- Warning printed by the invalid-binning-name fallback of
`pdf_maker_full_sample.py`. -/
def fsInvalidBinningWarning : String :=
  "Requested binning name invalid. Retunning linear binning..."

/-- Warning printed by `pdf_maker_full_sample.py` when a weight name is
supplied for the unknown sample. -/
def weightIgnoredWarning (w : String) : String :=
  "WARNING: A weight name, " ++ w ++ " has been specified for the unknown "
    ++ "sample. This is not possible with this code. Continuing..."

/-- Warning printed by `pdf_maker_full_sample.py` when the requested
`z_max` exceeds the available reference redshifts. -/
def zMaxWarning : String :=
  "WARNING: requested z_max is greater than available reference redshifts."

/-- Binning dispatch of `pdf_maker.py` (lines 55-78): branches on the
first element of `z_binning_type`; the adaptive branch evaluates
`pdf_maker.reference_redshift_array` in the scope bound so far; the file
branch drops the last element of the loaded list; an unrecognized name
warns and falls back to linear edges.  Returns the warnings printed and
the resulting `z_bin_edge_array` or the exception raised. -/
def pdfMakerBinning (env : Env) (scope : List String) (z_binning_type : List String)
    (z_min z_max : ℚ) (z_n_bins : ℕ) : List String × Except PyErr EdgeArray :=
  let bt := z_binning_type.headD ""
  if bt = "linear" then
    ([], .ok (.values (_create_linear_redshift_bin_edges z_min z_max z_n_bins)))
  else if bt = "adaptive" then
    match lookupName scope "pdf_maker" with
    | .error e => ([], .error e)
    | .ok _ => ([], .ok (.adaptiveCall z_min z_max z_n_bins))
  else if bt = "comoving" then
    ([], .ok (.comovingCall z_min z_max z_n_bins))
  else if bt = "logspace" then
    ([], .ok (.logspaceCall z_min z_max z_n_bins))
  else if bt = "file" then
    ([], .ok (.values ((env.loadtxt ((z_binning_type.drop 1).headD "")).dropLast)))
  else
    ([pdfInvalidBinningWarning],
      .ok (.values (_create_linear_redshift_bin_edges z_min z_max z_n_bins)))

/-- Binning dispatch of `pdf_maker_full_sample.py` (lines 69-89): branches
on the whole `z_binning_type` argument; it has no file branch; the
adaptive branch uses the preloaded reference redshifts and propagates a
degenerate-input failure as a fatal `BinningError`; an unrecognized name
warns and falls back to linear edges. -/
def fullSampleBinning (env : Env) (z_binning_type : String)
    (z_min z_max : ℚ) (z_n_bins : ℕ) : List String × Except PyErr EdgeArray :=
  if z_binning_type = "linear" then
    ([], .ok (.values (_create_linear_redshift_bin_edges z_min z_max z_n_bins)))
  else if z_binning_type = "adaptive" then
    match _create_adaptive_redshift_bin_edges z_min z_max z_n_bins
        env.referenceRedshifts with
    | .error _ => ([], .error .binningError)
    | .ok es => ([], .ok (.values es))
  else if z_binning_type = "comoving" then
    ([], .ok (.comovingCall z_min z_max z_n_bins))
  else if z_binning_type = "logspace" then
    ([], .ok (.logspaceCall z_min z_max z_n_bins))
  else
    ([fsInvalidBinningWarning],
      .ok (.values (_create_linear_redshift_bin_edges z_min z_max z_n_bins)))

/-- The parallel collapsing step of `pdf_maker.py`: a worker failure is
propagated as a pipeline-fatal error, never a silent partial result. -/
def collapse_ids_to_single_estimate (env : Env) : Except PyErr (List CollapsedEstimate) :=
  if env.workerOk then .ok (collapse_ids_core env.pairTable env.catalog)
  else .error .workerFailure

/-- Tail of both drivers from `compute_region_densities` on (the steps are
identical in the two scripts): region densities with their state guard,
the optional region-density snapshot file, the bootstrap step (random or
fixed-resample) with its guard, the optional bootstrap sample file, and
the final ASCII output file. -/
def pipelineTail (_env : Env) (warnings : List String) (events : List String)
    (edges : EdgeArray) (ests : List CollapsedEstimate)
    (_bootstrap_samples output_region_pickle_file output_bootstraps_file :
      Option String) (output_pdf_file_name : String) : RunResult :=
  match requireState .collapsed .collapsed "compute_region_densities" with
  | .error e =>
    ⟨warnings, [], events ++ ["regionDensities"], none, some ests, some e⟩
  | .ok _ =>
    let files1 := match output_region_pickle_file with
      | some f => [f]
      | none => []
    match requireState .regionDensitiesComputed .regionDensitiesComputed
        "compute_pdf_bootstrap" with
    | .error e =>
      ⟨warnings, files1, events ++ ["regionDensities", "bootstrap"],
        some edges, some ests, some e⟩
    | .ok _ =>
      let files2 := files1 ++ (match output_bootstraps_file with
        | some f => [f]
        | none => [])
      let files3 := files2 ++ [output_pdf_file_name]
      ⟨warnings, files3,
        events ++ ["regionDensities", "bootstrap", "writing"],
        some edges, some ests, none⟩

/-- The `__main__` block of `pdf_maker.py`: parse and load, create bins
(with `pdf_maker` not yet bound), collapse the pair indices (binding
`pdf_maker`), then the common pipeline tail. -/
def pdfMakerMain (env : Env) (z_binning_type : List String) (z_min z_max : ℚ)
    (z_n_bins : ℕ)
    (bootstrap_samples output_region_pickle_file output_bootstraps_file :
      Option String) (output_pdf_file_name : String) : RunResult :=
  let scope := ["args", "unknown_data"]
  let (w1, r1) := pdfMakerBinning env scope z_binning_type z_min z_max z_n_bins
  match r1 with
  | .error e => ⟨w1, [], ["binning"], none, none, some e⟩
  | .ok edges =>
    match collapse_ids_to_single_estimate env with
    | .error e => ⟨w1, [], ["binning", "collapse"], none, none, some e⟩
    | .ok ests =>
      pipelineTail env w1 ["binning", "collapse"] edges ests
        bootstrap_samples output_region_pickle_file output_bootstraps_file
        output_pdf_file_name

/-- Body of `pdf_maker_full_sample.py` after its weight-name warning:
preload the reference data (with its `z_max` warning), create bins,
collapse the full sample, then the common pipeline tail. -/
def fullSampleCore (env : Env) (z_binning_type : String) (z_min z_max : ℚ)
    (z_n_bins : ℕ)
    (bootstrap_samples output_region_pickle_file output_bootstraps_file :
      Option String) (output_pdf_file_name : String) : RunResult :=
  let w0 := match env.referenceRedshifts.max? with
    | some zm => if zm < z_max then [zMaxWarning] else []
    | none => []
  let (w1, r1) := fullSampleBinning env z_binning_type z_min z_max z_n_bins
  match r1 with
  | .error e => ⟨w0 ++ w1, [], ["binning"], none, none, some e⟩
  | .ok edges =>
    let ests := collapse_full_sample env.pairTable env.catalog
    pipelineTail env (w0 ++ w1) ["binning", "collapse"] edges ests
      bootstrap_samples output_region_pickle_file output_bootstraps_file
      output_pdf_file_name

/-- The `__main__` block of `pdf_maker_full_sample.py`: a supplied unknown
weight name only prints a warning (lines 27-33) and the run continues
unchanged. -/
def fullSampleMain (env : Env) (unknown_weight_name : Option String)
    (z_binning_type : String) (z_min z_max : ℚ) (z_n_bins : ℕ)
    (bootstrap_samples output_region_pickle_file output_bootstraps_file :
      Option String) (output_pdf_file_name : String) : RunResult :=
  let wWarn := match unknown_weight_name with
    | some w => [weightIgnoredWarning w]
    | none => []
  let r := fullSampleCore env z_binning_type z_min z_max z_n_bins
    bootstrap_samples output_region_pickle_file output_bootstraps_file
    output_pdf_file_name
  { r with warnings := wWarn ++ r.warnings }

/-! ## Helper lemmas: region-density counting -/

theorem binIndexOf_lt_succ (edges : List ℚ) (z : ℚ) :
    binIndexOf edges z < edges.length + 1 :=
  Nat.lt_succ_of_le (List.countP_le_length _)

theorem sum_bumpCell (m : ℕ × ℕ → ℚ × ℕ) (r0 b0 : ℕ) (d : ℚ) (N : ℕ)
    (hb : b0 < N) (r : ℕ) :
    Finset.sum (Finset.range N) (fun b => (bumpCell m (r0, b0) d (r, b)).2)
      = Finset.sum (Finset.range N) (fun b => (m (r, b)).2)
        + (if r = r0 then 1 else 0) := by
  by_cases hr : r = r0
  · subst hr
    have hpt : ∀ b, (bumpCell m (r, b0) d (r, b)).2
        = (m (r, b)).2 + (if b = b0 then 1 else 0) := by
      intro b
      by_cases hb' : b = b0
      · subst hb'; simp [bumpCell]
      · simp [bumpCell, hb', Prod.ext_iff]
    rw [Finset.sum_congr rfl (fun b _ => hpt b), Finset.sum_add_distrib,
      Finset.sum_ite_eq' (Finset.range N) b0 (fun _ => 1)]
    simp [Finset.mem_range.mpr hb]
  · have hpt : ∀ b, (bumpCell m (r0, b0) d (r, b)).2 = (m (r, b)).2 := by
      intro b
      have : (r, b) ≠ (r0, b0) := by
        intro hcontra
        exact hr (congrArg Prod.fst hcontra)
      simp [bumpCell, this]
    rw [Finset.sum_congr rfl (fun b _ => hpt b)]
    simp [hr]

theorem regionRowCount_eq_countP (ests : List CollapsedEstimate)
    (edges : List ℚ) (z_max : ℚ) (r : ℕ) :
    regionRowCount ests edges z_max r
      = ests.countP (fun e => decide (e.region = r) && decide (e.redshift < z_max)) := by
  induction ests with
  | nil => simp [regionRowCount, compute_region_densities]
  | cons e rest ih =>
    by_cases hz : e.redshift < z_max
    · unfold regionRowCount at ih ⊢
      simp only [compute_region_densities, if_pos hz]
      rw [sum_bumpCell _ _ _ _ _ (binIndexOf_lt_succ edges e.redshift) r, ih,
        List.countP_cons]
      simp [hz, eq_comm, Nat.add_comm]
    · unfold regionRowCount at ih ⊢
      simp only [compute_region_densities, if_neg hz]
      rw [ih, List.countP_cons]
      simp [hz]

theorem sum_countP_regions (ests : List CollapsedEstimate) (z_max : ℚ)
    (R : Finset ℕ)
    (hR : ∀ e ∈ ests, e.redshift < z_max → e.region ∈ R) :
    Finset.sum R
        (fun r => ests.countP
          (fun e => decide (e.region = r) && decide (e.redshift < z_max)))
      = ests.countP (fun e => decide (e.redshift < z_max)) := by
  induction ests with
  | nil => simp
  | cons e rest ih =>
    have hrest : ∀ e ∈ rest, e.redshift < z_max → e.region ∈ R := by
      intro x hx
      exact hR x (List.mem_cons_of_mem _ hx)
    simp only [List.countP_cons]
    rw [Finset.sum_add_distrib, ih hrest]
    by_cases hz : e.redshift < z_max
    · have hmem : e.region ∈ R := hR e (List.mem_cons_self _ _) hz
      have hcond : ∀ r : ℕ,
          ((decide (e.region = r) && decide (e.redshift < z_max)) = true)
            ↔ (e.region = r) := by
        intro r; simp [hz]
      have hsum : Finset.sum R
          (fun r => if (decide (e.region = r) && decide (e.redshift < z_max)) = true
            then 1 else 0) = 1 := by
        simp only [hcond]
        rw [Finset.sum_ite_eq R e.region (fun _ => 1)]
        simp [hmem]
      rw [hsum]
      simp [hz]
    · simp [hz]

/-! ## Helper lemmas: adaptive equal-count arithmetic -/

theorem div_add_div_le_add_div (a b n : ℕ) : a / n + b / n ≤ (a + b) / n := by
  rcases Nat.eq_zero_or_pos n with hn | hn
  · simp [hn]
  · rw [Nat.le_div_iff_mul_le hn]
    calc (a / n + b / n) * n = a / n * n + b / n * n := by ring
      _ ≤ a + b := Nat.add_le_add (Nat.div_mul_le_self a n) (Nat.div_mul_le_self b n)

theorem lt_div_succ_mul (a n : ℕ) (hn : 0 < n) : a < (a / n + 1) * n := by
  calc a = n * (a / n) + a % n := (Nat.div_add_mod a n).symm
    _ < n * (a / n) + n := Nat.add_lt_add_left (Nat.mod_lt a hn) _
    _ = (a / n + 1) * n := by ring

theorem add_div_le_div_add_div_succ (a b n : ℕ) (hn : 0 < n) :
    (a + b) / n ≤ a / n + b / n + 1 := by
  have h1 : a < (a / n + 1) * n := lt_div_succ_mul a n hn
  have h2 : b < (b / n + 1) * n := lt_div_succ_mul b n hn
  have hsum : a + b < (a / n + b / n + 2) * n := by
    calc a + b < (a / n + 1) * n + (b / n + 1) * n := Nat.add_lt_add h1 h2
      _ = (a / n + b / n + 2) * n := by ring
  have := (Nat.div_lt_iff_lt_mul hn).mpr hsum
  omega

theorem sub_interval_bounds (A B C : ℕ) (hl : A + C ≤ B) (hu : B ≤ A + C + 1) :
    C ≤ B - A ∧ B - A ≤ C + 1 := by omega

theorem adaptiveBinCount_bounds (m n i : ℕ) (hn : 0 < n) :
    m / n ≤ adaptiveBinCount m n i ∧ adaptiveBinCount m n i ≤ m / n + 1 := by
  have hmul : (i + 1) * m = i * m + m := by ring
  have hl := div_add_div_le_add_div (i * m) m n
  have hu := add_div_le_div_add_div_succ (i * m) m n hn
  unfold adaptiveBinCount
  rw [hmul]
  exact sub_interval_bounds (i * m / n) ((i * m + m) / n) (m / n) hl hu

theorem adaptiveBinCount_le_length (m n i : ℕ) (hi : i < n) :
    i * m / n ≤ (i + 1) * m / n ∧ (i + 1) * m / n ≤ m := by
  have hn : 0 < n := lt_of_le_of_lt (Nat.zero_le i) hi
  constructor
  · exact Nat.div_le_div_right (Nat.mul_le_mul_right m (Nat.le_succ i))
  · calc (i + 1) * m / n ≤ n * m / n :=
        Nat.div_le_div_right (Nat.mul_le_mul_right m hi)
      _ = m := Nat.mul_div_cancel_left m hn

theorem adaptiveBinMembers_length (s : List ℚ) (n i : ℕ) (hi : i < n) :
    (adaptiveBinMembers s n i).length = adaptiveBinCount s.length n i := by
  obtain ⟨h1, h2⟩ := adaptiveBinCount_le_length s.length n i hi
  unfold adaptiveBinMembers adaptiveBinCount
  rw [List.length_take, List.length_drop]
  omega

/-! ## Claim theorems -/

/-- C4: after `compute_region_densities(edges, z_max)` builds the matrix,
every region's row sum of object counts equals the number of collapsed
estimates with that region label and redshift strictly below `z_max`, and
the object counts summed over all (region, bin) cells equal the number of
collapsed estimates with redshift strictly below `z_max`; estimates with
redshift at or above `z_max` contribute to no cell. -/
theorem region_density_matrix_counts (ests : List CollapsedEstimate)
    (edges : List ℚ) (z_max : ℚ) :
    (∀ r : ℕ, regionRowCount ests edges z_max r
        = ests.countP (fun e => decide (e.region = r) && decide (e.redshift < z_max)))
    ∧ totalCellCount ests edges z_max
        = ests.countP (fun e => decide (e.redshift < z_max)) := by
  refine ⟨fun r => regionRowCount_eq_countP ests edges z_max r, ?_⟩
  unfold totalCellCount
  rw [Finset.sum_congr rfl (fun r _ => regionRowCount_eq_countP ests edges z_max r)]
  exact sum_countP_regions ests z_max _
    (fun e he _ => List.mem_toFinset.mpr (List.mem_map_of_mem _ he))

/-- C5: with at least `n_bins` distinct reference redshifts inside
`[z_min, z_max]`, adaptive binning succeeds and assigns every bin a count
of reference redshifts that differs from any other bin's count by at most
one; with fewer than `n_bins` distinct restricted redshifts it fails with
a `BinningError`, and in the full-sample driver that failure aborts the
run before the collapsing step. -/
theorem adaptive_binning_equal_count (z_min z_max : ℚ) (n_bins : ℕ)
    (refs : List ℚ) :
    (n_bins ≤ ((restrictedRedshifts z_min z_max refs).dedup).length →
      (∃ es, _create_adaptive_redshift_bin_edges z_min z_max n_bins refs = .ok es)
      ∧ ∀ i j, i < n_bins → j < n_bins →
          (adaptiveBinMembers (sortedRestricted z_min z_max refs) n_bins i).length
            ≤ (adaptiveBinMembers (sortedRestricted z_min z_max refs) n_bins j).length
              + 1)
    ∧ (((restrictedRedshifts z_min z_max refs).dedup).length < n_bins →
        _create_adaptive_redshift_bin_edges z_min z_max n_bins refs
          = .error .degenerate)
    ∧ (∀ (env : Env) (uwn bs orp obf : Option String) (opf : String),
        ((restrictedRedshifts z_min z_max env.referenceRedshifts).dedup).length
            < n_bins →
        (fullSampleMain env uwn "adaptive" z_min z_max n_bins bs orp obf opf).outcome
            = some .binningError
        ∧ "collapse" ∉
            (fullSampleMain env uwn "adaptive" z_min z_max n_bins bs orp obf opf).events) := by
  refine ⟨?_, ?_, ?_⟩
  · intro h
    constructor
    · have hok : _create_adaptive_redshift_bin_edges z_min z_max n_bins refs
          = .ok (((List.range n_bins).map
              (fun i => (sortedRestricted z_min z_max refs).getD
                (i * (sortedRestricted z_min z_max refs).length / n_bins) z_min))
            ++ [z_max]) := by
        simp only [_create_adaptive_redshift_bin_edges]
        rw [if_neg (Nat.not_lt.mpr h)]
      exact ⟨_, hok⟩
    · intro i j hi hj
      have hn : 0 < n_bins := lt_of_le_of_lt (Nat.zero_le i) hi
      rw [adaptiveBinMembers_length _ _ _ hi, adaptiveBinMembers_length _ _ _ hj]
      have bi := adaptiveBinCount_bounds (sortedRestricted z_min z_max refs).length
        n_bins i hn
      have bj := adaptiveBinCount_bounds (sortedRestricted z_min z_max refs).length
        n_bins j hn
      omega
  · intro h
    simp only [_create_adaptive_redshift_bin_edges]
    rw [if_pos h]
  · intro env uwn bs orp obf opf h
    have herr : _create_adaptive_redshift_bin_edges z_min z_max n_bins
        env.referenceRedshifts = .error .degenerate := by
      simp only [_create_adaptive_redshift_bin_edges]
      rw [if_pos h]
    have hdis : fullSampleBinning env "adaptive" z_min z_max n_bins
        = ([], .error .binningError) := by
      simp [fullSampleBinning, herr]
    constructor
    · simp [fullSampleMain, fullSampleCore, hdis]
    · simp [fullSampleMain, fullSampleCore, hdis]

/-- C6: for `z_min < z_max` and `n_bins ≥ 1` (and `z_min > -1` for the
log-spaced binner), the linear and log-spaced binners each return exactly
`n_bins + 1` strictly increasing edges whose first element is `z_min` and
whose last element is `z_max`. -/
theorem linear_logspace_edge_properties (z_minQ z_maxQ : ℚ) (z_min z_max : ℝ)
    (n_bins : ℕ) (hq : z_minQ < z_maxQ) (hr : z_min < z_max)
    (hneg : -1 < z_min) (hn : 1 ≤ n_bins) :
    ((_create_linear_redshift_bin_edges z_minQ z_maxQ n_bins).length = n_bins + 1
      ∧ (_create_linear_redshift_bin_edges z_minQ z_maxQ n_bins).Pairwise (· < ·)
      ∧ (_create_linear_redshift_bin_edges z_minQ z_maxQ n_bins)[0]? = some z_minQ
      ∧ (_create_linear_redshift_bin_edges z_minQ z_maxQ n_bins)[n_bins]?
          = some z_maxQ)
    ∧ ((_create_logspace_redshift_bin_edges z_min z_max n_bins).length = n_bins + 1
      ∧ (_create_logspace_redshift_bin_edges z_min z_max n_bins).Pairwise (· < ·)
      ∧ (_create_logspace_redshift_bin_edges z_min z_max n_bins)[0]? = some z_min
      ∧ (_create_logspace_redshift_bin_edges z_min z_max n_bins)[n_bins]?
          = some z_max) := by
  have hn0 : 0 < n_bins := hn
  have hnQ : (0 : ℚ) < n_bins := by exact_mod_cast hn0
  have hnR : (0 : ℝ) < n_bins := by exact_mod_cast hn0
  have h1p : (0 : ℝ) < 1 + z_min := by linarith
  have h1q : (0 : ℝ) < 1 + z_max := by linarith
  have hlog : Real.log (1 + z_min) < Real.log (1 + z_max) :=
    Real.log_lt_log h1p (by linarith)
  have hneQ : (n_bins : ℚ) ≠ 0 := hnQ.ne'
  have hneR : (n_bins : ℝ) ≠ 0 := hnR.ne'
  constructor
  · have hδ : 0 < (z_maxQ - z_minQ) / n_bins := div_pos (sub_pos.mpr hq) hnQ
    refine ⟨by simp [_create_linear_redshift_bin_edges], ?_, ?_, ?_⟩
    · unfold _create_linear_redshift_bin_edges
      rw [List.pairwise_map]
      refine (List.sorted_lt_range _).imp ?_
      intro a b hab
      have hab' : (a : ℚ) < b := by exact_mod_cast hab
      exact add_lt_add_left (mul_lt_mul_of_pos_right hab' hδ) _
    · unfold _create_linear_redshift_bin_edges
      rw [List.getElem?_map, List.getElem?_range (Nat.zero_lt_succ n_bins)]
      simp
    · unfold _create_linear_redshift_bin_edges
      rw [List.getElem?_map, List.getElem?_range (Nat.lt_succ_self n_bins)]
      simp only [Option.map_some']
      congr 1
      field_simp
  · have hδ : 0 < (Real.log (1 + z_max) - Real.log (1 + z_min)) / n_bins :=
      div_pos (sub_pos.mpr hlog) hnR
    refine ⟨by simp [_create_logspace_redshift_bin_edges], ?_, ?_, ?_⟩
    · unfold _create_logspace_redshift_bin_edges
      rw [List.pairwise_map]
      refine (List.sorted_lt_range _).imp ?_
      intro a b hab
      have hab' : (a : ℝ) < b := by exact_mod_cast hab
      have hlt := add_lt_add_left (mul_lt_mul_of_pos_right hab' hδ)
        (Real.log (1 + z_min))
      exact sub_lt_sub_right (Real.exp_lt_exp.mpr hlt) 1
    · unfold _create_logspace_redshift_bin_edges
      rw [List.getElem?_map, List.getElem?_range (Nat.zero_lt_succ n_bins)]
      simp [Real.exp_log h1p]
    · unfold _create_logspace_redshift_bin_edges
      rw [List.getElem?_map, List.getElem?_range (Nat.lt_succ_self n_bins)]
      simp only [Option.map_some']
      congr 1
      have harg : Real.log (1 + z_min) + (n_bins : ℝ) *
          ((Real.log (1 + z_max) - Real.log (1 + z_min)) / n_bins)
            = Real.log (1 + z_max) := by
        field_simp
      rw [harg, Real.exp_log h1q]
      ring

/-- C1: the fixed-resample bootstrap variant (`_compute_pdf_bootstrap`,
reached by the driver path that loads a pre-supplied region-draw list) is
a pure function of the region-density matrix and the draw list: two
invocations on equal inputs return identical `PDFResult` values (per-bin
estimates, errors and the trial matrix), with no additional randomness. -/
theorem compute_pdf_bootstrap_deterministic (m m' : RegionDensityMatrix)
    (l l' : List (List ℕ)) (hm : m = m') (hl : l = l') :
    _compute_pdf_bootstrap m l = _compute_pdf_bootstrap m' l' := by
  subst hm
  subst hl
  rfl

/-- C2: in both drivers, a binning-type argument outside the recognized
policy names does not fail the run: the dispatch surfaces the
invalid-binning warning, falls back to the linear bin edges over
`(z_min, z_max, n_bins)`, and the pipeline continues into the collapsing
step. -/
theorem invalid_binning_name_falls_back (env : Env) (scope bt : List String)
    (btf : String) (z_min z_max : ℚ) (n_bins : ℕ) (uwn : Option String)
    (bs orp obf : Option String) (opf : String)
    (h1 : bt.headD "" ∉ (["linear", "adaptive", "comoving", "logspace", "file"] :
      List String))
    (h2 : btf ∉ (["linear", "adaptive", "comoving", "logspace"] : List String)) :
    pdfMakerBinning env scope bt z_min z_max n_bins
        = ([pdfInvalidBinningWarning],
            .ok (.values (_create_linear_redshift_bin_edges z_min z_max n_bins)))
    ∧ fullSampleBinning env btf z_min z_max n_bins
        = ([fsInvalidBinningWarning],
            .ok (.values (_create_linear_redshift_bin_edges z_min z_max n_bins)))
    ∧ "collapse" ∈ (pdfMakerMain env bt z_min z_max n_bins bs orp obf opf).events
    ∧ "collapse" ∈
        (fullSampleMain env uwn btf z_min z_max n_bins bs orp obf opf).events := by
  simp only [List.mem_cons, List.not_mem_nil, or_false, not_or] at h1 h2
  obtain ⟨hb1, hb2, hb3, hb4, hb5⟩ := h1
  obtain ⟨hf1, hf2, hf3, hf4⟩ := h2
  simp only [List.headD_eq_head?_getD] at hb1 hb2 hb3 hb4 hb5
  have hpd : ∀ sc : List String, pdfMakerBinning env sc bt z_min z_max n_bins
      = ([pdfInvalidBinningWarning],
          .ok (.values (_create_linear_redshift_bin_edges z_min z_max n_bins))) := by
    intro sc
    simp [pdfMakerBinning, hb1, hb2, hb3, hb4, hb5]
  have hfd : fullSampleBinning env btf z_min z_max n_bins
      = ([fsInvalidBinningWarning],
          .ok (.values (_create_linear_redshift_bin_edges z_min z_max n_bins))) := by
    simp [fullSampleBinning, hf1, hf2, hf3, hf4]
  refine ⟨hpd scope, hfd, ?_, ?_⟩
  · cases hcol : collapse_ids_to_single_estimate env with
    | error e => simp [pdfMakerMain, hpd, hcol]
    | ok ests => simp [pdfMakerMain, hpd, hcol, pipelineTail, requireState]
  · simp [fullSampleMain, fullSampleCore, hfd, pipelineTail, requireState]

/-- C3: in full-sample mode, a supplied per-object weight source is
ignored and only warned about: `collapse_full_sample` computes the same
estimates for any two catalogs (weights are never consulted), and a run of
`pdf_maker_full_sample.py` with a weight name set produces the same
estimates, files and outcome as the run without it, plus the surfaced
warning. -/
theorem full_sample_ignores_weights (table : List ReferenceRecord)
    (cat cat' : UnknownCatalog) (env : Env) (w : String) (btf : String)
    (z_min z_max : ℚ) (n_bins : ℕ) (bs orp obf : Option String)
    (opf : String) :
    collapse_full_sample table cat = collapse_full_sample table cat'
    ∧ (fullSampleMain env (some w) btf z_min z_max n_bins bs orp obf opf).estimates
        = (fullSampleMain env none btf z_min z_max n_bins bs orp obf opf).estimates
    ∧ (fullSampleMain env (some w) btf z_min z_max n_bins bs orp obf opf).outcome
        = (fullSampleMain env none btf z_min z_max n_bins bs orp obf opf).outcome
    ∧ (fullSampleMain env (some w) btf z_min z_max n_bins bs orp obf opf).filesCreated
        = (fullSampleMain env none btf z_min z_max n_bins bs orp obf opf).filesCreated
    ∧ weightIgnoredWarning w ∈
        (fullSampleMain env (some w) btf z_min z_max n_bins bs orp obf opf).warnings := by
  refine ⟨rfl, rfl, rfl, rfl, ?_⟩
  simp [fullSampleMain]

/-- C7: when the `file` binning policy is requested, the bin-edge array
the pipeline hands to `compute_region_densities` is exactly the numeric
list loaded from the named file with its last element dropped. -/
theorem file_binning_edges_used (env : Env) (path : String)
    (rest : List String) (z_min z_max : ℚ) (n_bins : ℕ)
    (bs orp obf : Option String) (opf : String)
    (hw : env.workerOk = true) :
    (pdfMakerMain env ("file" :: path :: rest) z_min z_max n_bins
        bs orp obf opf).densityEdges
      = some (.values ((env.loadtxt path).dropLast)) := by
  have hpd : pdfMakerBinning env ["args", "unknown_data"]
      ("file" :: path :: rest) z_min z_max n_bins
      = ([], .ok (.values ((env.loadtxt path).dropLast))) := by
    simp [pdfMakerBinning]
  have hcol : collapse_ids_to_single_estimate env
      = .ok (collapse_ids_core env.pairTable env.catalog) := by
    simp [collapse_ids_to_single_estimate, hw]
  simp [pdfMakerMain, hpd, hcol, pipelineTail, requireState]

/-- C9: in `pdf_maker.py` the adaptive branch evaluates
`pdf_maker.reference_redshift_array`, but the name `pdf_maker` is bound
only later by the `collapse_ids_to_single_estimate` call; every run
through that branch therefore aborts with a `NameError` at bin creation,
before any pair collapsing occurs. -/
theorem adaptive_branch_name_error (env : Env) (bt : List String)
    (z_min z_max : ℚ) (n_bins : ℕ) (bs orp obf : Option String)
    (opf : String) (hbt : bt.headD "" = "adaptive") :
    (pdfMakerMain env bt z_min z_max n_bins bs orp obf opf).outcome
        = some (.nameError "pdf_maker")
    ∧ "collapse" ∉ (pdfMakerMain env bt z_min z_max n_bins bs orp obf opf).events := by
  rw [List.headD_eq_head?_getD] at hbt
  have hpd : pdfMakerBinning env ["args", "unknown_data"] bt z_min z_max n_bins
      = ([], .error (.nameError "pdf_maker")) := by
    simp [pdfMakerBinning, hbt, lookupName]
  constructor
  · simp [pdfMakerMain, hpd]
  · simp [pdfMakerMain, hpd]

/-- C10: the two drivers' binning dispatches are not equivalent for the
policy name `file`: `pdf_maker_full_sample.py`, which compares the whole
binning-type argument and has no file branch, takes the invalid-name
fallback to linear edges, while `pdf_maker.py`, which dispatches on the
first element, loads the edges from the named file (dropping the last
entry); on any file whose truncated contents differ from the linear edges
the two dispatches return different edge arrays. -/
theorem file_policy_dispatch_divergence (env : Env) (scope : List String)
    (path : String) (rest : List String) (z_min z_max : ℚ) (n_bins : ℕ)
    (hne : (env.loadtxt path).dropLast
      ≠ _create_linear_redshift_bin_edges z_min z_max n_bins) :
    fullSampleBinning env "file" z_min z_max n_bins
        = ([fsInvalidBinningWarning],
            .ok (.values (_create_linear_redshift_bin_edges z_min z_max n_bins)))
    ∧ pdfMakerBinning env scope ("file" :: path :: rest) z_min z_max n_bins
        = ([], .ok (.values ((env.loadtxt path).dropLast)))
    ∧ (fullSampleBinning env "file" z_min z_max n_bins).2
        ≠ (pdfMakerBinning env scope ("file" :: path :: rest) z_min z_max n_bins).2 := by
  have hfd : fullSampleBinning env "file" z_min z_max n_bins
      = ([fsInvalidBinningWarning],
          .ok (.values (_create_linear_redshift_bin_edges z_min z_max n_bins))) := by
    simp [fullSampleBinning]
  have hpd : pdfMakerBinning env scope ("file" :: path :: rest) z_min z_max n_bins
      = ([], .ok (.values ((env.loadtxt path).dropLast))) := by
    simp [pdfMakerBinning]
  refine ⟨hfd, hpd, ?_⟩
  rw [hfd, hpd]
  intro hcontra
  apply hne
  have := Except.ok.inj hcontra
  exact (EdgeArray.values.inj this).symm

/-- C8: any run aborted by a fatal condition (`BinningError`,
`PipelineStateError`, `WorkerFailure`) in either driver has created no
output file at the moment of the abort: all fatal aborts happen before the
first file-creating step. -/
theorem fatal_abort_before_any_output (env : Env) (bt : List String)
    (btf : String) (uwn : Option String) (z_min z_max : ℚ) (n_bins : ℕ)
    (bs orp obf : Option String) (opf : String) (e : PyErr)
    (_hfatal : e = .binningError ∨ (∃ s, e = .pipelineStateError s)
      ∨ e = .workerFailure) :
    ((pdfMakerMain env bt z_min z_max n_bins bs orp obf opf).outcome = some e →
      (pdfMakerMain env bt z_min z_max n_bins bs orp obf opf).filesCreated = [])
    ∧ ((fullSampleMain env uwn btf z_min z_max n_bins bs orp obf opf).outcome
          = some e →
      (fullSampleMain env uwn btf z_min z_max n_bins bs orp obf opf).filesCreated
        = []) := by
  constructor
  · intro hout
    rcases hbin : pdfMakerBinning env ["args", "unknown_data"] bt z_min z_max
        n_bins with ⟨w1, r1⟩
    cases r1 with
    | error er => simp [pdfMakerMain, hbin]
    | ok edges =>
      cases hcol : collapse_ids_to_single_estimate env with
      | error er => simp [pdfMakerMain, hbin, hcol]
      | ok ests =>
        exfalso
        have : (pdfMakerMain env bt z_min z_max n_bins bs orp obf opf).outcome
            = none := by
          simp [pdfMakerMain, hbin, hcol, pipelineTail, requireState]
        rw [this] at hout
        exact Option.noConfusion hout
  · intro hout
    rcases hbin : fullSampleBinning env btf z_min z_max n_bins with ⟨w1, r1⟩
    cases r1 with
    | error er => simp [fullSampleMain, fullSampleCore, hbin]
    | ok edges =>
      exfalso
      have : (fullSampleMain env uwn btf z_min z_max n_bins bs orp obf opf).outcome
          = none := by
        simp [fullSampleMain, fullSampleCore, hbin, pipelineTail, requireState]
      rw [this] at hout
      exact Option.noConfusion hout

/-! ## Concrete witness data -/

/-- Sample external world for concrete witness runs. -/
def sampleEnv : Env where
  loadtxt := fun _ => [0, 1, 2, 3]
  loadtxtInt := fun _ => [[0, 1, 2], [2, 2, 2]]
  referenceRedshifts := [1, 2, 3]
  pairTable := [⟨0, 1, [0, 1]⟩, ⟨1, 2, [2]⟩]
  catalog := ⟨fun _ => true, fun _ => 1⟩
  workerOk := true

/-- Sample external world whose collapsing workers fail. -/
def sampleEnvFail : Env :=
  { sampleEnv with workerOk := false }

/-- The specification's end-to-end example region-density matrix:
3 regions, 2 bins. -/
def exampleMatrix : RegionDensityMatrix where
  nRegions := 3
  nBins := 2
  cell := fun r b =>
    match r, b with
    | 0, 0 => (4, 2)
    | 1, 0 => (2, 1)
    | 2, 0 => (0, 0)
    | 0, 1 => (6, 3)
    | 1, 1 => (3, 1)
    | 2, 1 => (1, 1)
    | _, _ => (0, 0)

/-! ## Witnesses -/

/-- Witness for C1 at the specification's example matrix and fixed
resample list. -/
theorem compute_pdf_bootstrap_deterministic_witness :
    exampleMatrix = exampleMatrix
    ∧ _compute_pdf_bootstrap exampleMatrix [[0, 1, 2], [2, 2, 2]]
        = _compute_pdf_bootstrap exampleMatrix [[0, 1, 2], [2, 2, 2]] :=
  ⟨rfl, compute_pdf_bootstrap_deterministic exampleMatrix exampleMatrix
    [[0, 1, 2], [2, 2, 2]] [[0, 1, 2], [2, 2, 2]] rfl rfl⟩

/-- Witness for C2 at the unrecognized policy name `quadratic`. -/
theorem invalid_binning_name_falls_back_witness :
    ("quadratic" ∉ (["linear", "adaptive", "comoving", "logspace", "file"] :
        List String))
    ∧ "collapse" ∈ (pdfMakerMain sampleEnv ["quadratic"] 0 1 2
        none none none "out").events
    ∧ "collapse" ∈ (fullSampleMain sampleEnv none "quadratic" 0 1 2
        none none none "out").events :=
  ⟨by decide,
    (invalid_binning_name_falls_back sampleEnv [] ["quadratic"] "quadratic"
      0 1 2 none none none none "out" (by decide) (by decide)).2.2.1,
    (invalid_binning_name_falls_back sampleEnv [] ["quadratic"] "quadratic"
      0 1 2 none none none none "out" (by decide) (by decide)).2.2.2⟩

/-- Witness for C5: a non-degenerate and a degenerate concrete adaptive
binning input, and a degenerate full-sample driver run. -/
theorem adaptive_binning_equal_count_witness :
    (2 ≤ ((restrictedRedshifts 0 10 [3, 1, 2, 11]).dedup).length
      ∧ (∃ es, _create_adaptive_redshift_bin_edges 0 10 2 [3, 1, 2, 11] = .ok es))
    ∧ (((restrictedRedshifts 0 10 [3, 1, 2, 11]).dedup).length < 5
      ∧ _create_adaptive_redshift_bin_edges 0 10 5 [3, 1, 2, 11]
          = .error .degenerate)
    ∧ (fullSampleMain sampleEnv none "adaptive" 0 10 5 none none none "out").outcome
        = some .binningError :=
  ⟨⟨by decide,
      ((adaptive_binning_equal_count 0 10 2 [3, 1, 2, 11]).1 (by decide)).1⟩,
    ⟨by decide,
      (adaptive_binning_equal_count 0 10 5 [3, 1, 2, 11]).2.1 (by decide)⟩,
    ((adaptive_binning_equal_count 0 10 5 sampleEnv.referenceRedshifts).2.2
      sampleEnv none none none none "out" (by decide)).1⟩

/-- Witness for C6 at `z_min = 0`, `z_max = 1`, `n_bins = 2`. -/
theorem linear_logspace_edge_properties_witness :
    ((0 : ℚ) < 1 ∧ (0 : ℝ) < 1 ∧ (-1 : ℝ) < 0 ∧ 1 ≤ 2)
    ∧ (_create_linear_redshift_bin_edges 0 1 2).length = 2 + 1
    ∧ (_create_logspace_redshift_bin_edges 0 1 2).length = 2 + 1 :=
  ⟨⟨by decide, by norm_num, by norm_num, by decide⟩,
    ((linear_logspace_edge_properties 0 1 0 1 2 (by decide) (by norm_num)
      (by norm_num) (by decide)).1).1,
    ((linear_logspace_edge_properties 0 1 0 1 2 (by decide) (by norm_num)
      (by norm_num) (by decide)).2).1⟩

/-- Witness for C7 on the sample environment. -/
theorem file_binning_edges_used_witness :
    sampleEnv.workerOk = true
    ∧ (pdfMakerMain sampleEnv ["file", "edges.txt"] 0 1 2
        none none none "out").densityEdges
      = some (.values ((sampleEnv.loadtxt "edges.txt").dropLast)) :=
  ⟨rfl, file_binning_edges_used sampleEnv "edges.txt" [] 0 1 2
    none none none "out" rfl⟩

/-- Witness for C8: a worker failure aborts the weighted driver with no
file created. -/
theorem fatal_abort_before_any_output_witness :
    ((PyErr.workerFailure = .binningError
        ∨ (∃ s, PyErr.workerFailure = .pipelineStateError s)
        ∨ PyErr.workerFailure = .workerFailure)
      ∧ (pdfMakerMain sampleEnvFail ["linear"] 0 1 2
          (some "draws.txt") (some "regions.pkl") none "out").outcome
        = some .workerFailure)
    ∧ (pdfMakerMain sampleEnvFail ["linear"] 0 1 2
        (some "draws.txt") (some "regions.pkl") none "out").filesCreated = [] :=
  ⟨⟨Or.inr (Or.inr rfl), rfl⟩,
    (fatal_abort_before_any_output sampleEnvFail ["linear"] "linear" none 0 1 2
      (some "draws.txt") (some "regions.pkl") none "out" .workerFailure
      (Or.inr (Or.inr rfl))).1 rfl⟩

/-- Witness for C9 at the literal `adaptive` request. -/
theorem adaptive_branch_name_error_witness :
    (["adaptive"] : List String).headD "" = "adaptive"
    ∧ (pdfMakerMain sampleEnv ["adaptive"] 0 1 2 none none none "out").outcome
        = some (.nameError "pdf_maker") :=
  ⟨rfl, (adaptive_branch_name_error sampleEnv ["adaptive"] 0 1 2
    none none none "out" rfl).1⟩

/-- Witness for C10: on a four-entry bin file and one linear bin the two
dispatches return different edge arrays. -/
theorem file_policy_dispatch_divergence_witness :
    (sampleEnv.loadtxt "bins.txt").dropLast
        ≠ _create_linear_redshift_bin_edges 0 1 1
    ∧ (fullSampleBinning sampleEnv "file" 0 1 1).2
        ≠ (pdfMakerBinning sampleEnv [] ["file", "bins.txt"] 0 1 1).2 := by
  have hne : (sampleEnv.loadtxt "bins.txt").dropLast
      ≠ _create_linear_redshift_bin_edges 0 1 1 := by
    intro h
    have hlen := congrArg List.length h
    simp [sampleEnv, _create_linear_redshift_bin_edges] at hlen
  exact ⟨hne, (file_policy_dispatch_divergence sampleEnv [] "bins.txt" []
    0 1 1 hne).2.2⟩

end TheWizz
